import Mathlib

/-!
Verification of the live-interview web client's real-time streaming session
manager (the React `App` component and its helpers in the repository's web
client). Pure helper functions are embedded as Lean functions over `ℚ`
(exact rationals standing for JS numbers), `Int` and `String`; the
ref/state-cell based session bookkeeping is embedded as a record `AppState`
with each event handler a pure transition `AppState → AppState` (emitting an
`Action` list for externally visible channel operations).
-/

/-! ## Codec: `floatTo16BitPCM` / `int16ToFloat32` -/

/-- JS `Math.max` on two (non-NaN) numbers. -/
def jsMax (a b : ℚ) : ℚ :=
  if a < b then b else a

/-- JS `Math.min` on two (non-NaN) numbers. -/
def jsMin (a b : ℚ) : ℚ :=
  if a < b then a else b

/-- JS `ToInteger` truncation (round toward zero) on an exact rational.
Assignment into an `Int16Array` truncates toward zero and then wraps to the
int16 range; in `floatTo16BitPCM` the clamp to `[-1, 1]` keeps the product in
`[-32768, 32767]`, so the wrap is the identity and is not modelled. -/
def jsTrunc (q : ℚ) : Int :=
  if q < 0 then ⌈q⌉ else ⌊q⌋

/-- `floatTo16BitPCM` from the web client: clamp each sample to `[-1, 1]`,
scale negatives by `0x8000` and non-negatives by `0x7fff`, and truncate. -/
def floatTo16BitPCM (float32 : List ℚ) : List Int :=
  float32.map (fun x =>
    let s := jsMax (-1) (jsMin 1 x)
    if s < 0 then jsTrunc (s * 32768) else jsTrunc (s * 32767))

/-- `int16ToFloat32` from the web client: each 16-bit sample divided by
`0x8000`. -/
def int16ToFloat32 (int16 : List Int) : List ℚ :=
  int16.map (fun n => (n : ℚ) / 32768)

/-! ## Playback scheduling: the play cursor of `playAssistantAudio` -/

/-- The scheduled start time computed inside `playAssistantAudio`:
`Math.max(now + 0.05, playbackTimeRef.current || now + 0.05)`. The JS `||`
falls back exactly when the stored cursor is `0` (falsy). -/
def playbackStartAt (now cursor : ℚ) : ℚ :=
  jsMax (now + 1 / 20) (if cursor = 0 then now + 1 / 20 else cursor)

/-! ## Decoding inbound audio bytes -/

/-- Viewing the decoded byte buffer as an `Int16Array` (little-endian pairs,
two's complement), as `new Int16Array(buffer)` does in the client. -/
def bytesToInt16 : List Nat → List Int
  | b0 :: b1 :: rest =>
      (let v := b0 % 256 + 256 * (b1 % 256)
       if v ≥ 32768 then (v : Int) - 65536 else (v : Int)) :: bytesToInt16 rest
  | _ => []

/-- Value of one base64 alphabet character, `none` for a character outside
the alphabet (where `atob` would throw). -/
def b64Val (c : Char) : Option Nat :=
  if 'A' ≤ c ∧ c ≤ 'Z' then some (c.toNat - 65)
  else if 'a' ≤ c ∧ c ≤ 'z' then some (c.toNat - 97 + 26)
  else if '0' ≤ c ∧ c ≤ '9' then some (c.toNat - 48 + 52)
  else if c = '+' then some 62
  else if c = '/' then some 63
  else none

/-- Regroup 6-bit values into bytes, as `atob` does after stripping padding;
a leftover single value is malformed (`atob` throws). -/
def b64Bytes : List Nat → Option (List Nat)
  | [] => some []
  | [_] => none
  | [a, b] => some [a * 4 + b / 16]
  | [a, b, c] => some [a * 4 + b / 16, b % 16 * 16 + c / 4]
  | a :: b :: c :: d :: rest =>
      (b64Bytes rest).map (fun tail =>
        (a * 4 + b / 16) :: (b % 16 * 16 + c / 4) :: (c % 4 * 64 + d) :: tail)

/-- `base64ToUint8Array` from the web client (`atob` + `charCodeAt` loop),
modelled as a fallible decode: malformed input, on which `atob` throws,
yields `none`. -/
def base64ToUint8Array (base64 : String) : Option (List Nat) :=
  match (base64.data.filter (fun c => c ≠ '=')).mapM b64Val with
  | some vs => b64Bytes vs
  | none => none

/-! ## JSON values

Inbound envelopes and transcript payloads are parsed JSON. `JValue` models
the JSON values the client can receive (JS objects keep their keys unique,
so an association list suffices). -/

inductive JValue where
  | null : JValue
  | bool (b : Bool) : JValue
  | num (n : Int) : JValue
  | str (s : String) : JValue
  | arr (xs : List JValue) : JValue
  | obj (fields : List (String × JValue)) : JValue

/-- JS truthiness test on a JSON value (`!payload`): `null`, `false`, `0`
and the empty string are falsy. -/
def jsFalsy : JValue → Bool
  | .null => true
  | .bool b => !b
  | .num n => n == 0
  | .str s => s == ""
  | _ => false

/-- JS property read `obj[key]` on an object modelled as an association
list; `none` is `undefined`. -/
def jlookup (fields : List (String × JValue)) (key : String) : Option JValue :=
  (fields.find? (fun kv => kv.fst == key)).map (fun kv => kv.snd)

/-- `typeof x === "number" ? x : undefined` on a property. -/
def numField (fields : List (String × JValue)) (key : String) : Option Int :=
  match jlookup fields key with
  | some (.num n) => some n
  | _ => none

/-- `typeof x === "string" ? x : undefined` on a property. -/
def strField (fields : List (String × JValue)) (key : String) : Option String :=
  match jlookup fields key with
  | some (.str s) => some s
  | _ => none

/-- Escaping applied by `JSON.stringify` to string contents (quote and
backslash; control-character escapes are not exercised by this client). -/
def jsonEscape (s : String) : String :=
  s.data.foldl
    (fun acc c =>
      acc ++ (if c = '"' then "\\\"" else if c = '\\' then "\\\\" else String.singleton c))
    ""

mutual

/-- `JSON.stringify` on a JSON value (no cycles are possible in `JValue`,
so the `try`/`catch` fallback of the caller never fires). -/
def jsonStringify : JValue → String
  | .null => "null"
  | .bool b => cond b "true" "false"
  | .num n => toString n
  | .str s => "\"" ++ jsonEscape s ++ "\""
  | .arr xs => "[" ++ jsonStringifyElems xs ++ "]"
  | .obj fs => "\x7b" ++ jsonStringifyFields fs ++ "\x7d"

/-- Comma-separated serialization of a JSON array's elements. -/
def jsonStringifyElems : List JValue → String
  | [] => ""
  | [v] => jsonStringify v
  | v :: w :: rest => jsonStringify v ++ "," ++ jsonStringifyElems (w :: rest)

/-- Comma-separated serialization of a JSON object's fields. -/
def jsonStringifyFields : List (String × JValue) → String
  | [] => ""
  | [(k, v)] => "\"" ++ jsonEscape k ++ "\":" ++ jsonStringify v
  | (k, v) :: f :: rest =>
      "\"" ++ jsonEscape k ++ "\":" ++ jsonStringify v ++ "," ++ jsonStringifyFields (f :: rest)

end

mutual

/-- JS `String(x)` coercion on a JSON value. -/
def jsString : JValue → String
  | .null => "null"
  | .bool b => cond b "true" "false"
  | .num n => toString n
  | .str s => s
  | .arr xs => jsStringJoin xs
  | .obj _ => "[object Object]"

/-- `Array.prototype.toString` (`join(",")`): `null` elements become the
empty string. -/
def jsStringJoin : List JValue → String
  | [] => ""
  | [v] => (match v with | .null => "" | w => jsString w)
  | v :: w :: rest =>
      (match v with | .null => "" | u => jsString u) ++ "," ++ jsStringJoin (w :: rest)

end

/-! ## Transcript aggregation -/

/-- Roles of conversational log messages. -/
inductive Role where
  | system : Role
  | user : Role
  | assistant : Role
deriving DecidableEq

/-- Roles carried by transcript entries (`"user" | "assistant"`). -/
inductive TRole where
  | user : TRole
  | assistant : TRole
deriving DecidableEq

/-- One entry of the conversational log (`ChatMessage`). -/
structure ChatMessage where
  id : Nat
  role : Role
  text : String
deriving DecidableEq

/-- One transcript entry (`Transcript`): a fragment or merged utterance. -/
structure Transcript where
  id : Nat
  role : TRole
  text : String
  timestamp : Nat
deriving DecidableEq

/-- JS `String.prototype.trim`: strip whitespace from both ends (the
ASCII whitespace relevant to this client). -/
def jsTrim (s : String) : String :=
  ⟨((s.data.dropWhile Char.isWhitespace).reverse.dropWhile Char.isWhitespace).reverse⟩

/-- `String((segment).text ?? "")` for one element of a `segments` /
`transcripts` array: only objects can carry a `text` property (`"text" in
segment`), and `??` maps a `null` property to the empty string. -/
def segText : JValue → String
  | .obj fields =>
      match jlookup fields "text" with
      | some .null => ""
      | some v => jsString v
      | none => ""
  | _ => ""

/-- `extractTranscriptText` from the web client: falsy payloads yield the
empty string; strings pass through; objects are probed for `text`,
`transcript`, `segments`, `transcripts` in that order; everything else
falls back to `JSON.stringify`. -/
def extractTranscriptText (payload : JValue) : String :=
  if jsFalsy payload then ""
  else
    match payload with
    | .str s => s
    | .obj fields =>
        (match jlookup fields "text" with
         | some (.str t) => t
         | _ =>
           match jlookup fields "transcript" with
           | some (.str t) => t
           | _ =>
             match jlookup fields "segments" with
             | some (.arr xs) => jsTrim (String.intercalate " " (xs.map segText))
             | _ =>
               match jlookup fields "transcripts" with
               | some (.arr xs) => jsTrim (String.intercalate " " (xs.map segText))
               | _ => jsonStringify (.obj fields))
    | v => jsonStringify v

/-- The payload argument of `appendTranscript` may be absent
(`data.payload` is `undefined`), which is falsy. -/
def extractTranscriptTextOpt : Option JValue → String
  | none => ""
  | some p => extractTranscriptText p

/-- `appendTranscript` from the client variant that keeps raw fragments in
`transcripts` (merging is done by the `setTranscriptsFormatted` effect):
drop empty or whitespace-only extractions, otherwise append a fresh entry
whose id is one past the last. -/
def appendTranscript (now : Nat) (transcripts : List Transcript) (role : TRole)
    (payload : Option JValue) : List Transcript :=
  let extractedText := extractTranscriptTextOpt payload
  if extractedText = "" ∨ jsTrim extractedText = "" then transcripts
  else
    match transcripts.getLast? with
    | none => [⟨1, role, extractedText, now⟩]
    | some last => transcripts ++ [⟨last.id + 1, role, extractedText, now⟩]

/-- One step of the `setTranscriptsFormatted` recomputation effect: a
fragment merges into the last formatted utterance when the roles agree and
starts a new utterance otherwise. -/
def formatStep (formatted : List Transcript) (item : Transcript) : List Transcript :=
  match formatted.getLast? with
  | none => formatted ++ [item]
  | some last =>
      if last.role = item.role then
        formatted.dropLast ++ [{ last with text := last.text ++ item.text }]
      else
        formatted ++ [item]

/-- The `setTranscriptsFormatted` effect: rebuild the display-ready
utterance sequence from the raw fragment list. -/
def formatTranscripts (transcripts : List Transcript) : List Transcript :=
  transcripts.foldl formatStep []


/-! ## Session state

The React component keeps its session bookkeeping in `useState` cells and
`useRef` cells (`resumeHandleRef` mirrors the `resumeHandle` state through a
dedicated effect, so one field models both). `websocketOpen` models the
socket handle: `none` when `websocketRef.current` is `null`, `some b` for a
live handle with `b` tracking `readyState === OPEN`. `reconnectTimeout`
holds the delay of a scheduled `connect(true)` timer, `none` when no timer
is pending. -/

/-- The connection status state
(`"disconnected" | "connecting" | "connected" | "error"`). -/
inductive Status where
  | disconnected : Status
  | connecting : Status
  | connected : Status
  | error : Status
deriving DecidableEq

/-- The negotiated sample rates (`ServerInfo`), absent fields being
`undefined`. -/
structure ServerInfo where
  sendSampleRate : Option Int
  receiveSampleRate : Option Int
deriving DecidableEq

structure AppState where
  status : Status
  messages : List ChatMessage
  messageId : Nat
  transcripts : List Transcript
  warningCount : Int
  remainingWarnings : Option Int
  serverInfo : Option ServerInfo
  resumeHandle : Option String
  aiSessionId : Option String
  manualDisconnect : Bool
  reconnectTimeout : Option Nat
  reconnectAttempts : Nat
  connectionAttempt : Bool
  websocketOpen : Option Bool
  playbackTime : ℚ
deriving DecidableEq

/-- Externally visible channel operations emitted by a handler. -/
inductive ChannelAction where
  | closeChannel (code : Option (Nat × String)) : ChannelAction
deriving DecidableEq

/-- The client's initial state (initial `useState` / `useRef` values, with
no stored resume handle in local storage). -/
def initialState : AppState where
  status := .disconnected
  messages := []
  messageId := 0
  transcripts := []
  warningCount := 0
  remainingWarnings := none
  serverInfo := none
  resumeHandle := none
  aiSessionId := none
  manualDisconnect := false
  reconnectTimeout := none
  reconnectAttempts := 0
  connectionAttempt := false
  websocketOpen := none
  playbackTime := 0

/-- `appendMessage`: ignore empty text, otherwise append to the
conversational log with the next id. -/
def appendMessage (s : AppState) (role : Role) (text : String) : AppState :=
  if text = "" then s
  else
    { s with
      messageId := s.messageId + 1
      messages := s.messages ++ [⟨s.messageId + 1, role, text⟩] }

/-- The fallback capture sample rate (`FALLBACK_SEND_SAMPLE_RATE`). -/
def FALLBACK_SEND_SAMPLE_RATE : Int := 16000

/-- The capture rate chosen inside `processor.onaudioprocess`:
`serverInfo?.sendSampleRate ?? FALLBACK_SEND_SAMPLE_RATE`. -/
def desiredRate (serverInfo : Option ServerInfo) : Int :=
  ((serverInfo.bind fun info => info.sendSampleRate).getD FALLBACK_SEND_SAMPLE_RATE)

/-- The playback rate chosen inside `playAssistantAudio`:
`sampleRate ?? serverInfo?.receiveSampleRate ?? ctx.sampleRate`. -/
def targetSampleRate (sampleRate : Option Int) (serverInfo : Option ServerInfo)
    (ctxRate : Int) : Int :=
  sampleRate.getD ((serverInfo.bind fun info => info.receiveSampleRate).getD ctxRate)

/-- `playAssistantAudio` acting on the decoded byte buffer: odd-length and
empty buffers are dropped; otherwise the frame is scheduled at the play
cursor and the cursor advances by the frame duration
(`audioBuffer.duration = length / sampleRate`). `now` is `ctx.currentTime`
and `ctxRate` is `ctx.sampleRate`. -/
def playAssistantAudio (bytes : List Nat) (sampleRate : Option Int) (now : ℚ)
    (ctxRate : Int) (s : AppState) : AppState :=
  if bytes.length % 2 ≠ 0 then s
  else
    let pcm := bytesToInt16 bytes
    if pcm.length = 0 then s
    else
      let floats := int16ToFloat32 pcm
      let rate := targetSampleRate sampleRate s.serverInfo ctxRate
      let startAt := playbackStartAt now s.playbackTime
      { s with playbackTime := startAt + (floats.length : ℚ) / (rate : ℚ) }

/-! ## Message protocol dispatcher (`handleServerMessage`) -/

/-- `case "status"` of `handleServerMessage`: replace the negotiated rates
wholesale, adopt a non-empty string `resumeHandle`, promote `connecting` to
`connected`, and log a notice. -/
def statusCase (data : List (String × JValue)) (s : AppState) :
    AppState × List ChannelAction :=
  let info : ServerInfo := ⟨numField data "sendSampleRate", numField data "receiveSampleRate"⟩
  let s1 := { s with serverInfo := some info }
  let s2 :=
    match strField data "resumeHandle" with
    | some h => if h ≠ "" then { s1 with resumeHandle := some h } else s1
    | none => s1
  let s3 := { s2 with status := if s2.status = .connecting then .connected else s2.status }
  (appendMessage s3 .system "Connected to interview server.", [])

/-- `case "audio"` of `handleServerMessage`: decode and schedule playback;
a malformed base64 payload makes `atob` throw, which the `void`-ed promise
swallows, leaving the state unchanged. -/
def audioCase (data : List (String × JValue)) (now : ℚ) (ctxRate : Int)
    (s : AppState) : AppState × List ChannelAction :=
  match strField data "data" with
  | some b64 =>
      (match base64ToUint8Array b64 with
       | some bytes => (playAssistantAudio bytes (numField data "sampleRate") now ctxRate s, [])
       | none => (s, []))
  | none => (s, [])

/-- `case "transcript"` of `handleServerMessage`: any role string other
than `"user"` is treated as `"assistant"`. -/
def transcriptCase (data : List (String × JValue)) (ts : Nat) (s : AppState) :
    AppState × List ChannelAction :=
  match strField data "role" with
  | some r =>
      let role := if r = "user" then TRole.user else TRole.assistant
      ({ s with transcripts := appendTranscript ts s.transcripts role (jlookup data "payload") }, [])
  | none => (s, [])

/-- `case "monitor"` of `handleServerMessage`. -/
def monitorCase (data : List (String × JValue)) (s : AppState) :
    AppState × List ChannelAction :=
  match jlookup data "event" with
  | some (.str e) =>
      if e = "look_away_warning" then
        let warnings := (numField data "warnings").getD (s.warningCount + 1)
        let s1 := { s with warningCount := warnings, remainingWarnings := numField data "remaining" }
        (appendMessage s1 .system ("Eye-contact warning " ++ toString warnings ++ "."), [])
      else if e = "look_away_terminated" then
        let s1 := { s with
          warningCount := (numField data "warnings").getD s.warningCount
          remainingWarnings := some 0 }
        (appendMessage s1 .system "Session will conclude due to repeated look-aways.", [])
      else (s, [])
  | _ => (s, [])

/-- `case "recordings"` of `handleServerMessage`: surface artifact paths,
with no state change beyond the log. -/
def recordingsCase (data : List (String × JValue)) (s : AppState) :
    AppState × List ChannelAction :=
  let sessionId := (strField data "sessionId").getD "unknown"
  let parts :=
    ([("assistant: ", strField data "assistantPath"),
      ("candidate: ", strField data "candidatePath"),
      ("mix: ", strField data "mixPath"),
      ("transcripts: ", strField data "transcriptsPath")] : List (String × Option String)).filterMap
      (fun pv => pv.snd.map (fun v => pv.fst ++ v))
  if parts ≠ [] then
    (appendMessage s .system
      ("Artifacts for session " ++ sessionId ++ " saved -> " ++ String.intercalate ", " parts), [])
  else (s, [])

/-- `case "session_complete"` of `handleServerMessage`: log the reason,
mark the disconnect intentional, reset the attempt counter, clear the
resumption handle, close an open channel with code 1000 and go to
`disconnected`. -/
def sessionCompleteCase (data : List (String × JValue)) (s : AppState) :
    AppState × List ChannelAction :=
  let reason := (strField data "reason").getD "completed"
  let detail :=
    match strField data "detail" with
    | some d => if d ≠ "" then some d else none
    | none => none
  let detailSuffix := match detail with | some d => ": " ++ d | none => ""
  let s1 := appendMessage s .system ("Session complete (" ++ reason ++ ")" ++ detailSuffix)
  let s2 := { s1 with
    manualDisconnect := true
    reconnectAttempts := 0
    resumeHandle := none
    status := .disconnected }
  (s2, if s.websocketOpen = some true then [.closeChannel (some (1000, "session complete"))] else [])

/-- `case "session_resumption"` of `handleServerMessage`: adopt a non-empty
handle, mirror it into the AI session record, and log a notice. -/
def sessionResumptionCase (data : List (String × JValue)) (s : AppState) :
    AppState × List ChannelAction :=
  match strField data "handle" with
  | some h =>
      if h ≠ "" then
        (appendMessage { s with resumeHandle := some h, aiSessionId := some h } .system
          "Session resume handle updated. You can reconnect without losing context.", [])
      else (s, [])
  | none => (s, [])

/-- `case "context_ack"` of `handleServerMessage`. The accepted field names
are echoed back; a non-string array element is coerced the way
`Array.prototype.join` would coerce it. -/
def contextAckCase (data : List (String × JValue)) (s : AppState) :
    AppState × List ChannelAction :=
  let updated := match jlookup data "updated" with | some (.arr xs) => xs | _ => []
  if updated.length > 0 then
    let labels := updated.map (fun f =>
      match f with
      | .str "jobDescription" => "job description"
      | .null => ""
      | v => jsString v)
    (appendMessage s .system
      ("Interview context updated (" ++ String.intercalate " & " labels ++ ")."), [])
  else
    (appendMessage s .system
      "Context update ignored. Provide a resume and/or job description to override the defaults.", [])

/-- `case "error"` of `handleServerMessage`: surface the message and go to
the terminal `error` status. -/
def errorCase (data : List (String × JValue)) (s : AppState) :
    AppState × List ChannelAction :=
  let message := (strField data "message").getD "Server error"
  let details := (strField data "details").getD ""
  let s1 := appendMessage s .system
    ("Error: " ++ message ++ (if details ≠ "" then " (" ++ details ++ ")" else ""))
  ({ s1 with status := .error }, [])

/-- `case "session_expired"` of `handleServerMessage`: log the message,
clear the resumption handle, mark the disconnect intentional, reset the
attempt counter, close an open channel with code 1000 and go to
`disconnected`. -/
def sessionExpiredCase (data : List (String × JValue)) (s : AppState) :
    AppState × List ChannelAction :=
  let message := (strField data "message").getD "Session expired. Please start a new interview."
  let s1 := appendMessage s .system message
  let s2 := { s1 with
    resumeHandle := none
    manualDisconnect := true
    reconnectAttempts := 0
    status := .disconnected }
  (s2, if s.websocketOpen = some true then [.closeChannel (some (1000, "session expired"))] else [])

/-- `handleServerMessage`: parse the envelope and dispatch on its string
`type` discriminator; a non-object envelope has no `type` property and a
non-string discriminator reaches the logging `default` branch, both
no-ops. `now` is the output-clock time, `ts` the wall-clock timestamp and
`ctxRate` the audio-context sample rate at delivery. -/
def handleServerMessage (now : ℚ) (ts : Nat) (ctxRate : Int) (raw : JValue)
    (s : AppState) : AppState × List ChannelAction :=
  let data := match raw with | .obj fields => fields | _ => []
  match jlookup data "type" with
  | some (.str t) =>
      if t = "status" then statusCase data s
      else if t = "audio" then audioCase data now ctxRate s
      else if t = "text" then
        (match strField data "text" with
         | some txt => (appendMessage s .assistant txt, [])
         | none => (s, []))
      else if t = "transcript" then transcriptCase data ts s
      else if t = "monitor" then monitorCase data s
      else if t = "recordings" then recordingsCase data s
      else if t = "session_complete" then sessionCompleteCase data s
      else if t = "session_resumption" then sessionResumptionCase data s
      else if t = "context_ack" then contextAckCase data s
      else if t = "error" then errorCase data s
      else if t = "session_expired" then sessionExpiredCase data s
      else (s, [])
  | _ => (s, [])

/-! ## Session controller: `connect`, `ws.onclose` -/

/-- The synchronous body of `connect(isReconnect)` up to the creation of
the socket handle: a no-op while a socket handle exists or a connection
attempt is in flight; otherwise a fresh (non-reconnect) call cancels any
pending reconnect timer and resets the attempt counter, and the call marks
the attempt in flight, builds the (possibly resuming) URL and opens a new
socket in the `CONNECTING` ready state. -/
def connect (isReconnect : Bool) (s : AppState) : AppState :=
  if s.websocketOpen.isSome ∨ s.connectionAttempt then s
  else
    let s1 :=
      if ¬isReconnect ∧ s.reconnectTimeout.isSome then { s with reconnectTimeout := none } else s
    { s1 with
      connectionAttempt := true
      manualDisconnect := false
      reconnectAttempts := if isReconnect then s1.reconnectAttempts else 0
      status := .connecting
      websocketOpen := some false }

/-- `ws.onclose`: release the attempt flag and the handle, tear down media
(which zeroes the play cursor), cancel a pending reconnect timer, then —
for an unexpected closure with a stored resumption handle — bump the
attempt counter and either give up with a terminal error after the 5th
attempt or schedule `connect(true)` after
`min(10000, 1000 * 2 ** max(0, attempts - 1))` milliseconds; any other
closure settles at `disconnected`. -/
def wsOnClose (s : AppState) : AppState :=
  let s1 := { s with
    connectionAttempt := false
    websocketOpen := none
    playbackTime := 0
    reconnectTimeout := none }
  if ¬s.manualDisconnect ∧ s.resumeHandle.isSome then
    let attempts := s.reconnectAttempts + 1
    if attempts > 5 then
      appendMessage { s1 with reconnectAttempts := attempts, status := .error } .system
        "Reached maximum reconnection attempts. Please reconnect manually."
    else
      let delay := min 10000 (1000 * 2 ^ (attempts - 1))
      appendMessage
        { s1 with
          reconnectAttempts := attempts
          status := .connecting
          reconnectTimeout := some delay } .system
        ("Connection lost. Attempting to resume in " ++ toString (delay / 1000) ++ "s (try " ++
          toString attempts ++ "/5).")
  else { s1 with status := .disconnected }

/-- The state after `n` failed reconnect cycles: each cycle is an
unexpected closure followed by the scheduled `connect(true)` firing. -/
def afterClosures (s : AppState) : Nat → AppState
  | 0 => s
  | n + 1 => afterClosures (connect true (wsOnClose s)) n

/-- The reconnect delays scheduled by `n` consecutive unexpected closures
(`none` when a closure schedules no reconnect). -/
def reconnectDelays (s : AppState) : Nat → List (Option Nat)
  | 0 => []
  | n + 1 =>
      let s1 := wsOnClose s
      s1.reconnectTimeout :: reconnectDelays (connect true s1) n

/-! ## Helper lemmas -/

@[simp] theorem appendMessage_statusField (s : AppState) (r : Role) (t : String) :
    (appendMessage s r t).status = s.status := by
  unfold appendMessage; split <;> rfl

@[simp] theorem appendMessage_transcripts (s : AppState) (r : Role) (t : String) :
    (appendMessage s r t).transcripts = s.transcripts := by
  unfold appendMessage; split <;> rfl

@[simp] theorem appendMessage_warningCount (s : AppState) (r : Role) (t : String) :
    (appendMessage s r t).warningCount = s.warningCount := by
  unfold appendMessage; split <;> rfl

@[simp] theorem appendMessage_remainingWarnings (s : AppState) (r : Role) (t : String) :
    (appendMessage s r t).remainingWarnings = s.remainingWarnings := by
  unfold appendMessage; split <;> rfl

@[simp] theorem appendMessage_serverInfo (s : AppState) (r : Role) (t : String) :
    (appendMessage s r t).serverInfo = s.serverInfo := by
  unfold appendMessage; split <;> rfl

@[simp] theorem appendMessage_resumeHandle (s : AppState) (r : Role) (t : String) :
    (appendMessage s r t).resumeHandle = s.resumeHandle := by
  unfold appendMessage; split <;> rfl

@[simp] theorem appendMessage_aiSessionId (s : AppState) (r : Role) (t : String) :
    (appendMessage s r t).aiSessionId = s.aiSessionId := by
  unfold appendMessage; split <;> rfl

@[simp] theorem appendMessage_manualDisconnect (s : AppState) (r : Role) (t : String) :
    (appendMessage s r t).manualDisconnect = s.manualDisconnect := by
  unfold appendMessage; split <;> rfl

@[simp] theorem appendMessage_reconnectTimeout (s : AppState) (r : Role) (t : String) :
    (appendMessage s r t).reconnectTimeout = s.reconnectTimeout := by
  unfold appendMessage; split <;> rfl

@[simp] theorem appendMessage_reconnectAttempts (s : AppState) (r : Role) (t : String) :
    (appendMessage s r t).reconnectAttempts = s.reconnectAttempts := by
  unfold appendMessage; split <;> rfl

@[simp] theorem appendMessage_connectionAttempt (s : AppState) (r : Role) (t : String) :
    (appendMessage s r t).connectionAttempt = s.connectionAttempt := by
  unfold appendMessage; split <;> rfl

@[simp] theorem appendMessage_websocketOpen (s : AppState) (r : Role) (t : String) :
    (appendMessage s r t).websocketOpen = s.websocketOpen := by
  unfold appendMessage; split <;> rfl

@[simp] theorem appendMessage_playbackTime (s : AppState) (r : Role) (t : String) :
    (appendMessage s r t).playbackTime = s.playbackTime := by
  unfold appendMessage; split <;> rfl

/-! ## Claims -/

/-- C1: the Transcript Aggregator appends a new Utterance when the
sequence is empty or the previous entry's role differs from the incoming
fragment's role, and otherwise concatenates the fragment's text onto the
last Utterance's text; consequently the fragments
`[(user, "Hel"), (user, "lo"), (assistant, "Hi")]` delivered through
`appendTranscript` format to exactly
`[(user, "Hello"), (assistant, "Hi")]`. -/
theorem c1_transcript_aggregation :
    (∀ t : Transcript, formatStep [] t = [t]) ∧
    (∀ (acc : List Transcript) (t last : Transcript), acc.getLast? = some last →
      last.role ≠ t.role → formatStep acc t = acc ++ [t]) ∧
    (∀ (acc : List Transcript) (t last : Transcript), acc.getLast? = some last →
      last.role = t.role →
      formatStep acc t = acc.dropLast ++ [{ last with text := last.text ++ t.text }]) ∧
    (formatTranscripts
        (appendTranscript 2
          (appendTranscript 1
            (appendTranscript 0 [] .user (some (.str "Hel")))
            .user (some (.str "lo")))
          .assistant (some (.str "Hi")))).map (fun t => (t.role, t.text)) =
      [(.user, "Hello"), (.assistant, "Hi")] := by
  refine ⟨fun t => rfl, fun acc t last h hne => ?_, fun acc t last h he => ?_, by decide⟩
  · unfold formatStep
    rw [h]
    simp [hne]
  · unfold formatStep
    rw [h]
    simp [he]

/-- Witness for C1 at concrete inputs: a same-role fragment merges into
the last utterance and a role change starts a new one. -/
theorem c1_witness :
    formatStep [⟨1, .user, "Hel", 0⟩] ⟨2, .user, "lo", 1⟩ = [⟨1, .user, "Hello", 0⟩] ∧
    formatStep [⟨1, .user, "Hello", 0⟩] ⟨3, .assistant, "Hi", 2⟩ =
      [⟨1, .user, "Hello", 0⟩, ⟨3, .assistant, "Hi", 2⟩] := by
  constructor
  · rw [c1_transcript_aggregation.2.2.1 [⟨1, .user, "Hel", 0⟩] ⟨2, .user, "lo", 1⟩
      ⟨1, .user, "Hel", 0⟩ rfl rfl]
    rfl
  · rw [c1_transcript_aggregation.2.1 [⟨1, .user, "Hello", 0⟩] ⟨3, .assistant, "Hi", 2⟩
      ⟨1, .user, "Hello", 0⟩ rfl (by decide)]
    rfl

/-- C8: an inbound `audio` frame whose decoded byte length is odd is
dropped without touching the playback cursor, any other playback state or
the connection status. -/
theorem c8_odd_audio_dropped (bytes : List Nat) (sampleRate : Option Int) (now : ℚ)
    (ctxRate : Int) (s : AppState) (h : bytes.length % 2 = 1) :
    playAssistantAudio bytes sampleRate now ctxRate s = s := by
  unfold playAssistantAudio
  rw [if_pos (by omega)]

/-- Witness for C8: a one-byte frame leaves the initial state unchanged. -/
theorem c8_witness :
    playAssistantAudio [0] none 0 48000 initialState = initialState :=
  c8_odd_audio_dropped [0] none 0 48000 initialState rfl

/-- C4: under the play-cursor discipline of `playAssistantAudio`, for two
consecutively scheduled frames of durations `d1`, `d2` arriving at
arbitrary (non-negative) output-clock times, the second start is at least
`start1 + d1` (frames play back-to-back, no overlap), and the play cursor
never decreases. -/
theorem playbackStartAt_ge_margin (now cursor : ℚ) : now + 1 / 20 ≤ playbackStartAt now cursor := by
  unfold playbackStartAt jsMax
  split_ifs <;> linarith

theorem playbackStartAt_ge_cursor_of_ne (now cursor : ℚ) (h : cursor ≠ 0) :
    cursor ≤ playbackStartAt now cursor := by
  unfold playbackStartAt
  rw [if_neg h]
  unfold jsMax
  split_ifs <;> linarith

theorem playbackStartAt_ge_cursor (now cursor : ℚ) (hn : 0 ≤ now) (hc : 0 ≤ cursor) :
    cursor ≤ playbackStartAt now cursor := by
  by_cases h : cursor = 0
  · subst h
    have := playbackStartAt_ge_margin now 0
    linarith
  · exact playbackStartAt_ge_cursor_of_ne now cursor h

theorem c4_playback_no_overlap (now1 now2 cursor d1 d2 : ℚ)
    (hn1 : 0 ≤ now1) (hn2 : 0 ≤ now2) (hc : 0 ≤ cursor) (hd1 : 0 ≤ d1) (hd2 : 0 ≤ d2) :
    playbackStartAt now2 (playbackStartAt now1 cursor + d1) ≥ playbackStartAt now1 cursor + d1 ∧
    playbackStartAt now1 cursor + d1 ≥ cursor ∧
    playbackStartAt now2 (playbackStartAt now1 cursor + d1) + d2 ≥
      playbackStartAt now1 cursor + d1 := by
  have h1 := playbackStartAt_ge_margin now1 cursor
  have h2 := playbackStartAt_ge_cursor now1 cursor hn1 hc
  have hne : playbackStartAt now1 cursor + d1 ≠ 0 := by
    intro heq
    linarith
  have h3 := playbackStartAt_ge_cursor_of_ne now2 (playbackStartAt now1 cursor + d1) hne
  exact ⟨h3, by linarith, by linarith⟩

/-- Witness for C4 at concrete times: two unit-duration frames arriving at
time 0 with a fresh cursor. -/
theorem c4_witness :
    playbackStartAt 0 (playbackStartAt 0 0 + 1) ≥ playbackStartAt 0 0 + 1 ∧
    playbackStartAt 0 0 + 1 ≥ 0 ∧
    playbackStartAt 0 (playbackStartAt 0 0 + 1) + 1 ≥ playbackStartAt 0 0 + 1 :=
  c4_playback_no_overlap 0 0 0 1 1 (by norm_num) (by norm_num) (by norm_num)
    (by norm_num) (by norm_num)

/-- C5 fails as stated: at the sample `x = 65533/65534` the asymmetric
quantizer truncates `x * 32767 = 32766.5` down to `32766`, and the
round-trip error `65533/65534 - 32766/32768` exceeds `1/32768`. -/
theorem c5_counterexample :
    ¬(|(65533 / 65534 : ℚ) -
        (int16ToFloat32 (floatTo16BitPCM [65533 / 65534])).headD 0| ≤ 1 / 32768) := by
  have hq : floatTo16BitPCM [65533 / 65534] = [32766] := by
    norm_num [floatTo16BitPCM, jsMin, jsMax, jsTrunc]
  rw [hq]
  simp only [int16ToFloat32, List.map, List.headD]
  rw [abs_of_pos (by norm_num)]
  norm_num

/-- C5 amended: the round trip of `floatTo16BitPCM` followed by
`int16ToFloat32` on a sample `x ∈ [-1, 1]` is accurate to `1/16384`
(`2/32768`); the tighter `1/32768` bound of the claim holds for negative
samples but not near `+1`, where the `×32767` scaling against the `/32768`
decoding loses up to one extra step. -/
theorem c5_round_trip_amended (x : ℚ) (hl : -1 ≤ x) (hr : x ≤ 1) :
    |x - (int16ToFloat32 (floatTo16BitPCM [x])).headD 0| ≤ 1 / 16384 := by
  have hclamp : jsMax (-1) (jsMin 1 x) = x := by
    unfold jsMax jsMin
    split_ifs <;> linarith
  simp only [floatTo16BitPCM, int16ToFloat32, List.map, List.headD, hclamp]
  by_cases hx : x < 0
  · rw [if_pos hx]
    unfold jsTrunc
    rw [if_pos (by nlinarith)]
    have h1 : (x * 32768 : ℚ) ≤ ⌈x * 32768⌉ := Int.le_ceil _
    have h2 : (⌈x * 32768⌉ : ℚ) < x * 32768 + 1 := Int.ceil_lt_add_one _
    rw [abs_le]
    constructor <;> [linarith; linarith]
  · rw [if_neg hx]
    push_neg at hx
    unfold jsTrunc
    rw [if_neg (by nlinarith)]
    have h1 : (⌊x * 32767⌋ : ℚ) ≤ x * 32767 := Int.floor_le _
    have h2 : (x * 32767 : ℚ) - 1 < ⌊x * 32767⌋ := Int.sub_one_lt_floor _
    rw [abs_le]
    constructor <;> [linarith; linarith]

/-- Witness for C5 (amended) at `x = 1/2`. -/
theorem c5_witness :
    |(1 / 2 : ℚ) - (int16ToFloat32 (floatTo16BitPCM [1 / 2])).headD 0| ≤ 1 / 16384 :=
  c5_round_trip_amended (1 / 2) (by norm_num) (by norm_num)

/-- C7 fails as stated: a truthy payload that is neither a string nor
carries `text`/`transcript` fields nor `segments`/`transcripts` arrays is
not dropped — `extractTranscriptText` falls back to `JSON.stringify`, and
the aggregator appends an utterance fabricated from the raw payload (here
the object with single field `foo: 1`). -/
theorem c7_counterexample :
    extractTranscriptText (JValue.obj [("foo", JValue.num 1)]) =
      jsonStringify (JValue.obj [("foo", JValue.num 1)]) ∧
    appendTranscript 0 [] TRole.user (some (JValue.obj [("foo", JValue.num 1)])) =
      [⟨1, TRole.user, "\x7b\"foo\":1\x7d", 0⟩] := by
  exact ⟨rfl, by decide⟩

/-- C7 amended: a transcript payload whose extracted text is empty or
whitespace-only is dropped with the utterance sequence unchanged; a
truthy non-string payload without the recognized fields is instead
serialized by the `JSON.stringify` fallback and appended. -/
theorem c7_empty_payload_dropped (now : Nat) (transcripts : List Transcript)
    (role : TRole) (payload : Option JValue)
    (h : jsTrim (extractTranscriptTextOpt payload) = "") :
    appendTranscript now transcripts role payload = transcripts := by
  simp [appendTranscript, h]

/-- Witness for C7 (amended): an absent payload (`undefined`) is dropped. -/
theorem c7_witness :
    appendTranscript 0 [] TRole.user none = [] :=
  c7_empty_payload_dropped 0 [] TRole.user none rfl

/-- A connected session holding a resumption handle, as reached after a
successful `connect()` and a `status`/`session_resumption` exchange. -/
def connectedState : AppState :=
  { initialState with
    status := .connected
    websocketOpen := some true
    resumeHandle := some "h" }

/-- C9 fails as stated: after an unexpected closure of `connectedState`
the client is `connecting` (backoff window, reconnect timer pending), yet
`connect()` in that state is not a no-op — it cancels the pending timer,
resets the attempt counter and opens a fresh socket. -/
theorem c9_counterexample :
    (wsOnClose connectedState).status = Status.connecting ∧
    connect false (wsOnClose connectedState) ≠ wsOnClose connectedState := by
  refine ⟨by decide, fun h => ?_⟩
  exact absurd (congrArg AppState.reconnectAttempts h) (by decide)

/-- C9 amended: `connect()` is a no-op exactly while a socket handle
exists or a connection attempt is in flight — which covers every
`Connected` state — leaving the channel, device acquisition and all
session fields untouched; during the reconnect backoff window the status
is `Connecting` with no socket, and `connect()` instead cancels the
pending reconnect and starts a fresh attempt with the counter reset. -/
theorem c9_connect_noop (s : AppState)
    (h : s.websocketOpen.isSome = true ∨ s.connectionAttempt = true) :
    connect false s = s := by
  unfold connect
  rw [if_pos h]

/-- Witness for C9 (amended): `connect()` on a connected session with a
live socket changes nothing. -/
theorem c9_witness : connect false connectedState = connectedState :=
  c9_connect_noop connectedState (Or.inl rfl)

/-- C2: starting from any state with no manual disconnect, a stored
resumption handle and a zeroed attempt counter, five consecutive
unexpected closures schedule reconnects after exactly 1000, 2000, 4000,
8000 and 10000 ms, and the sixth closure settles at the terminal `error`
status with no further reconnect scheduled. -/
theorem c2_reconnect_backoff (s : AppState) (hm : s.manualDisconnect = false)
    (hh : s.resumeHandle.isSome = true) (ha : s.reconnectAttempts = 0) :
    reconnectDelays s 5 = [some 1000, some 2000, some 4000, some 8000, some 10000] ∧
    (wsOnClose (afterClosures s 5)).status = Status.error ∧
    (wsOnClose (afterClosures s 5)).reconnectTimeout = none := by
  simp [reconnectDelays, afterClosures, wsOnClose, connect, hm, hh, ha]

/-- Witness for C2 at the concrete connected session. -/
theorem c2_witness :
    reconnectDelays connectedState 5 =
      [some 1000, some 2000, some 4000, some 8000, some 10000] ∧
    (wsOnClose (afterClosures connectedState 5)).status = Status.error ∧
    (wsOnClose (afterClosures connectedState 5)).reconnectTimeout = none :=
  c2_reconnect_backoff connectedState rfl rfl rfl

/-- C3: an envelope whose `type` discriminator is `session_expired` makes
the dispatcher clear the resumption handle, mark the disconnect as
intentional, close the (open) channel and transition to `disconnected`. -/
theorem c3_session_expired (now : ℚ) (ts : Nat) (ctxRate : Int)
    (data : List (String × JValue)) (s : AppState)
    (htype : jlookup data "type" = some (.str "session_expired"))
    (hopen : s.websocketOpen = some true) :
    (handleServerMessage now ts ctxRate (.obj data) s).1.resumeHandle = none ∧
    (handleServerMessage now ts ctxRate (.obj data) s).1.manualDisconnect = true ∧
    (handleServerMessage now ts ctxRate (.obj data) s).1.status = Status.disconnected ∧
    (handleServerMessage now ts ctxRate (.obj data) s).2 =
      [ChannelAction.closeChannel (some (1000, "session expired"))] := by
  simp [handleServerMessage, htype, sessionExpiredCase, hopen]

/-- Witness for C3: a concrete `session_expired` envelope delivered to the
connected session. -/
theorem c3_witness :
    (handleServerMessage 0 0 48000 (.obj [("type", .str "session_expired")])
      connectedState).1.resumeHandle = none ∧
    (handleServerMessage 0 0 48000 (.obj [("type", .str "session_expired")])
      connectedState).1.manualDisconnect = true ∧
    (handleServerMessage 0 0 48000 (.obj [("type", .str "session_expired")])
      connectedState).1.status = Status.disconnected ∧
    (handleServerMessage 0 0 48000 (.obj [("type", .str "session_expired")])
      connectedState).2 = [ChannelAction.closeChannel (some (1000, "session expired"))] :=
  c3_session_expired 0 0 48000 [("type", .str "session_expired")] connectedState rfl rfl

/-- C6: an envelope whose `type` discriminator is `session_complete` makes
the dispatcher mark the disconnect as intentional, clear the resumption
handle, close the (open) channel with normal-closure code 1000 and settle
at `disconnected`; the closure this triggers schedules no reconnect and
leaves the status `disconnected`. -/
theorem c6_session_complete (now : ℚ) (ts : Nat) (ctxRate : Int)
    (data : List (String × JValue)) (s : AppState)
    (htype : jlookup data "type" = some (.str "session_complete"))
    (hopen : s.websocketOpen = some true) :
    (handleServerMessage now ts ctxRate (.obj data) s).1.manualDisconnect = true ∧
    (handleServerMessage now ts ctxRate (.obj data) s).1.resumeHandle = none ∧
    (handleServerMessage now ts ctxRate (.obj data) s).1.status = Status.disconnected ∧
    (handleServerMessage now ts ctxRate (.obj data) s).2 =
      [ChannelAction.closeChannel (some (1000, "session complete"))] ∧
    (wsOnClose (handleServerMessage now ts ctxRate (.obj data) s).1).reconnectTimeout = none ∧
    (wsOnClose (handleServerMessage now ts ctxRate (.obj data) s).1).status =
      Status.disconnected := by
  simp [handleServerMessage, htype, sessionCompleteCase, hopen, wsOnClose]

/-- Witness for C6: a concrete `session_complete` envelope delivered to
the connected session, followed by the channel closure it triggers. -/
theorem c6_witness :
    (handleServerMessage 0 0 48000 (.obj [("type", .str "session_complete")])
      connectedState).1.manualDisconnect = true ∧
    (handleServerMessage 0 0 48000 (.obj [("type", .str "session_complete")])
      connectedState).1.resumeHandle = none ∧
    (handleServerMessage 0 0 48000 (.obj [("type", .str "session_complete")])
      connectedState).1.status = Status.disconnected ∧
    (handleServerMessage 0 0 48000 (.obj [("type", .str "session_complete")])
      connectedState).2 = [ChannelAction.closeChannel (some (1000, "session complete"))] ∧
    (wsOnClose (handleServerMessage 0 0 48000 (.obj [("type", .str "session_complete")])
      connectedState).1).reconnectTimeout = none ∧
    (wsOnClose (handleServerMessage 0 0 48000 (.obj [("type", .str "session_complete")])
      connectedState).1).status = Status.disconnected :=
  c6_session_complete 0 0 48000 [("type", .str "session_complete")] connectedState rfl rfl

/-- C10: a processed `status` envelope replaces the negotiated-rate record
wholesale with exactly the rates carried by the envelope; when
`sendSampleRate` is absent or non-numeric the stored send rate becomes
`undefined` and capture falls back to 16000 Hz, and when
`receiveSampleRate` is absent or non-numeric playback (of a frame without
its own rate) falls back to the output device's native rate. -/
theorem c10_status_replaces_rates (now : ℚ) (ts : Nat) (ctxRate : Int)
    (data : List (String × JValue)) (s : AppState)
    (htype : jlookup data "type" = some (.str "status")) :
    (handleServerMessage now ts ctxRate (.obj data) s).1.serverInfo =
      some ⟨numField data "sendSampleRate", numField data "receiveSampleRate"⟩ ∧
    (numField data "sendSampleRate" = none →
      desiredRate (handleServerMessage now ts ctxRate (.obj data) s).1.serverInfo = 16000) ∧
    (numField data "receiveSampleRate" = none →
      targetSampleRate none (handleServerMessage now ts ctxRate (.obj data) s).1.serverInfo
        ctxRate = ctxRate) := by
  have hsi : (handleServerMessage now ts ctxRate (.obj data) s).1.serverInfo =
      some ⟨numField data "sendSampleRate", numField data "receiveSampleRate"⟩ := by
    cases hr : strField data "resumeHandle" with
    | none => simp [handleServerMessage, htype, statusCase, hr]
    | some h0 =>
        by_cases hne : h0 = ""
        · simp [handleServerMessage, htype, statusCase, hr, hne]
        · simp [handleServerMessage, htype, statusCase, hr, hne]
  refine ⟨hsi, fun h => ?_, fun h => ?_⟩
  · rw [hsi, h]
    simp [desiredRate, FALLBACK_SEND_SAMPLE_RATE]
  · rw [hsi, h]
    simp [targetSampleRate]

/-- Witness for C10: a `status` envelope carrying neither rate resets a
previously negotiated record and both fallbacks engage. -/
theorem c10_witness :
    (handleServerMessage 0 0 48000 (.obj [("type", .str "status")])
      { initialState with serverInfo := some ⟨some 24000, some 24000⟩ }).1.serverInfo =
      some ⟨none, none⟩ ∧
    desiredRate (handleServerMessage 0 0 48000 (.obj [("type", .str "status")])
      { initialState with serverInfo := some ⟨some 24000, some 24000⟩ }).1.serverInfo = 16000 ∧
    targetSampleRate none (handleServerMessage 0 0 48000 (.obj [("type", .str "status")])
      { initialState with serverInfo := some ⟨some 24000, some 24000⟩ }).1.serverInfo
      48000 = 48000 := by
  have h := c10_status_replaces_rates 0 0 48000 [("type", .str "status")]
    { initialState with serverInfo := some ⟨some 24000, some 24000⟩ } rfl
  exact ⟨h.1, h.2.1 rfl, h.2.2 rfl⟩
